import Mathlib

/-!
Verification of the hierarchical multi-select filter of `src/Dashboard.py`
(cmg777/streamlit102).

The dashboard's filter core (lines 57-84) takes the date-filtered dataframe
`df`, three multiselect selections `region`, `state`, `city`, builds the
cascaded frames `df2` and `df3`, and resolves the final `filtered_df` through
an eight-branch conditional chain.

Shallow embedding: a dataframe is a list of rows; a pandas boolean-mask
selection `frame[mask]` is `List.filter` with the row predicate of the mask
(masks built from any ancestor frame are index-aligned, so per row they test
exactly the row's own field values); a multiselect value is a `List String`,
empty meaning "no constraint"; Python truthiness of a list is `!isEmpty`.
-/

namespace Dashboard

/-- One record of the dataset: the three categorical columns the filter reads,
plus the remaining columns (dates, sales, ...) that the filter never inspects,
kept abstract as a list of cell strings. -/
structure Row where
  Region : String
  State : String
  City : String
  rest : List String
  deriving DecidableEq, Repr

/-- Line 58: `df2 = df[df["Region"].isin(region)] if region else df.copy()`.
A copy has the same rows, so both Python branches map to the same list. -/
def df2 (df : List Row) (region : List String) : List Row :=
  if region.isEmpty then df
  else df.filter (fun x => region.contains x.Region)

/-- Line 62: `df3 = df2[df2["State"].isin(state)] if state else df2.copy()`. -/
def df3 (df : List Row) (region state : List String) : List Row :=
  if state.isEmpty then df2 df region
  else (df2 df region).filter (fun x => state.contains x.State)

/-- Line 76: `filtered_df = df3[df["State"].isin(state) & df3["City"].isin(city)]`.
The `df["State"]` mask is index-aligned with `df3`, so per retained row it
tests that row's own State. -/
def branchStateCity (df : List Row) (region state city : List String) : List Row :=
  (df3 df region state).filter (fun x => state.contains x.State && city.contains x.City)

/-- Line 78: `filtered_df = df3[df["Region"].isin(region) & df3["City"].isin(city)]`. -/
def branchRegionCity (df : List Row) (region state city : List String) : List Row :=
  (df3 df region state).filter (fun x => region.contains x.Region && city.contains x.City)

/-- Lines 69-84: the eight-branch resolution chain assigning `filtered_df`.
Each guard is the Python truthiness test of the corresponding `if`/`elif`. -/
def filtered_df (df : List Row) (region state city : List String) : List Row :=
  if region.isEmpty && state.isEmpty && city.isEmpty then
    df
  else if state.isEmpty && city.isEmpty then
    df.filter (fun x => region.contains x.Region)
  else if region.isEmpty && city.isEmpty then
    df.filter (fun x => state.contains x.State)
  else if !state.isEmpty && !city.isEmpty then
    branchStateCity df region state city
  else if !region.isEmpty && !city.isEmpty then
    branchRegionCity df region state city
  else if !region.isEmpty && !state.isEmpty then
    (df3 df region state).filter
      (fun x => region.contains x.Region && state.contains x.State)
  else if !city.isEmpty then
    (df3 df region state).filter (fun x => city.contains x.City)
  else
    (df3 df region state).filter
      (fun x => region.contains x.Region && state.contains x.State
        && city.contains x.City)

/-- Which of the eight branches of lines 69-84 fires, numbered in source
order; 8 is the final `else`. -/
def branchIndex (region state city : List String) : Nat :=
  if region.isEmpty && state.isEmpty && city.isEmpty then 1
  else if state.isEmpty && city.isEmpty then 2
  else if region.isEmpty && city.isEmpty then 3
  else if !state.isEmpty && !city.isEmpty then 4
  else if !region.isEmpty && !city.isEmpty then 5
  else if !region.isEmpty && !state.isEmpty then 6
  else if !city.isEmpty then 7
  else 8

/-- Modelled from the spec's eight-case resolution table (section 4.1): each
non-empty selection contributes a membership conjunct; an empty selection
accepts every value at its level. -/
def resolveSpec (df : List Row) (region state city : List String) : List Row :=
  df.filter (fun x =>
    (region.isEmpty || region.contains x.Region)
      && (state.isEmpty || state.contains x.State)
      && (city.isEmpty || city.contains x.City))

/-- Line 61: the State multiselect offers `df2["State"].unique()` -- the
distinct states of the region-cascaded frame. -/
def availableStates (df : List Row) (region : List String) : List String :=
  ((df2 df region).map Row.State).dedup

/-- Line 65: the City multiselect offers `df3["City"].unique()` -- the
distinct cities of the region+state-cascaded frame. -/
def availableCities (df : List Row) (region state : List String) : List String :=
  ((df3 df region state).map Row.City).dedup

/-- Object identity of `filtered_df` and `df`: branch 1 of lines 69-84 binds
`filtered_df` to the `df` object itself (`filtered_df = df`), while every
other branch builds a fresh frame through boolean indexing. -/
def filteredAliasesDf (region state city : List String) : Bool :=
  region.isEmpty && state.isEmpty && city.isEmpty

/-- Column list of the base frame `df` at the final download (line 199), after
lines 129 and 179 added the `month_year` and `month` columns to `filtered_df`
in place: those additions land on `df` exactly when `filtered_df` aliases
`df`. -/
def dfColumnsAfterScript (baseCols : List String) (region state city : List String) :
    List String :=
  if filteredAliasesDf region state city then baseCols ++ ["month_year", "month"]
  else baseCols

/-- The concrete dataset of the spec's test scenario (section 8). -/
def sampleData : List Row :=
  [⟨"East", "NY", "NYC", []⟩, ⟨"West", "CA", "LA", []⟩, ⟨"West", "CA", "SF", []⟩]

example : filtered_df sampleData ["West"] [] ["SF"] = [⟨"West", "CA", "SF", []⟩] := by decide

example : filtered_df sampleData [] ["CA"] [] =
    [⟨"West", "CA", "LA", []⟩, ⟨"West", "CA", "SF", []⟩] := by decide

/-- The branch chain of lines 69-84 computes, on every input, exactly the
filter prescribed by the spec's eight-case table. -/
theorem filtered_eq_spec (df : List Row) (r s c : List String) :
    filtered_df df r s c = resolveSpec df r s c := by
  cases r <;> cases s <;> cases c <;>
    simp [filtered_df, resolveSpec, branchStateCity, branchRegionCity, df3, df2,
      List.filter_filter]
  all_goals
    refine List.filter_congr fun x hx => ?_
    simp [Bool.and_comm, Bool.and_left_comm, Bool.and_assoc, Bool.and_self_left]

/-- Membership characterization of the spec-side resolution. -/
theorem mem_resolveSpec {df : List Row} {r s c : List String} {x : Row} :
    x ∈ resolveSpec df r s c ↔
      x ∈ df ∧ (r ≠ [] → x.Region ∈ r) ∧ (s ≠ [] → x.State ∈ s)
        ∧ (c ≠ [] → x.City ∈ c) := by
  simp [resolveSpec, List.mem_filter, List.isEmpty_iff, or_iff_not_imp_left,
    and_assoc]

/-- Membership in the region-cascaded frame `df2`. -/
theorem mem_df2 {df : List Row} {r : List String} {x : Row} :
    x ∈ df2 df r ↔ x ∈ df ∧ (r ≠ [] → x.Region ∈ r) := by
  by_cases h : r = [] <;>
    simp [df2, h, List.mem_filter, List.isEmpty_iff]

/-- Membership in the region+state-cascaded frame `df3`. -/
theorem mem_df3 {df : List Row} {r s : List String} {x : Row} :
    x ∈ df3 df r s ↔
      x ∈ df ∧ (r ≠ [] → x.Region ∈ r) ∧ (s ≠ [] → x.State ∈ s) := by
  by_cases h : s = [] <;>
    simp [df3, h, List.mem_filter, List.isEmpty_iff, mem_df2, and_assoc]

/-- C1: the filter-resolution block of lines 69-84 returns, for every dataset
and every combination of the three selections, exactly the rows of the
date-filtered dataset prescribed by the spec's eight-case table: with all
three selections empty the dataset is returned unchanged, and otherwise a row
appears in the result if and only if its Region, State and City belong to the
corresponding selection whenever that selection is non-empty. -/
theorem resolution_matches_eight_case_table (df : List Row) (r s c : List String) :
    filtered_df df r s c = resolveSpec df r s c ∧
      ∀ x : Row, x ∈ filtered_df df r s c ↔
        x ∈ df ∧ (r ≠ [] → x.Region ∈ r) ∧ (s ≠ [] → x.State ∈ s)
          ∧ (c ≠ [] → x.City ∈ c) :=
  ⟨filtered_eq_spec df r s c, fun _ => by
    rw [filtered_eq_spec]; exact mem_resolveSpec⟩

/-- C2: every row of the resolved result satisfies the membership constraint
of each non-empty selection simultaneously (a conjunction, never a
disjunction); in particular, for non-empty regionSel no row with
Region ∉ regionSel ever appears, whatever the state and city selections. -/
theorem rows_satisfy_all_nonempty_constraints (df : List Row) (r s c : List String)
    (x : Row) (hx : x ∈ filtered_df df r s c) :
    (r ≠ [] → x.Region ∈ r) ∧ (s ≠ [] → x.State ∈ s) ∧ (c ≠ [] → x.City ∈ c) := by
  rw [filtered_eq_spec] at hx
  exact (mem_resolveSpec.mp hx).2

theorem rows_satisfy_all_nonempty_constraints_witness :
    (["West"] ≠ ([] : List String) → "West" ∈ ["West"]) ∧
      (([] : List String) ≠ [] → "CA" ∈ ([] : List String)) ∧
      (["SF"] ≠ ([] : List String) → "SF" ∈ ["SF"]) :=
  rows_satisfy_all_nonempty_constraints sampleData ["West"] [] ["SF"]
    ⟨"West", "CA", "SF", []⟩ (by decide)

/-- C3: resolving with all three selections empty returns the dataset
unchanged, row for row and in the same order. -/
theorem empty_selections_identity (df : List Row) :
    filtered_df df [] [] [] = df := rfl

/-- C4: the resolution is idempotent: applying the filter-resolution block to
its own output with the same selections yields the same result. -/
theorem resolve_idempotent (df : List Row) (r s c : List String) :
    filtered_df (filtered_df df r s c) r s c = filtered_df df r s c := by
  rw [filtered_eq_spec (filtered_df df r s c), filtered_eq_spec df]
  simp [resolveSpec, List.filter_filter]

/-- C5: the resolution is a total function: on every dataset and every
combination of selections it produces a well-formed (possibly empty)
subsequence of the input, and on the empty dataset it produces the empty
result rather than an error. -/
theorem resolve_total_and_sublist (df : List Row) (r s c : List String) :
    (filtered_df df r s c).Sublist df ∧ filtered_df ([] : List Row) r s c = [] := by
  constructor
  · rw [filtered_eq_spec]
    exact List.filter_sublist df
  · rw [filtered_eq_spec]
    simp [resolveSpec]

/-- C6: the option list offered for the State level (line 61) is exactly the
set of distinct State values occurring among rows whose Region belongs to the
region selection, or among all rows when that selection is empty; in
particular with regionSel a singleton it contains only states observed in
rows of that region. -/
theorem availableStates_exactly_observed (df : List Row) (r : List String)
    (v : String) :
    v ∈ availableStates df r ↔
      ∃ x, x ∈ df ∧ (r ≠ [] → x.Region ∈ r) ∧ x.State = v := by
  simp [availableStates, List.mem_dedup, List.mem_map, mem_df2, and_assoc]

/-- C7: cascading invariant: any state offered by the State option list
resolves to a non-empty result when selected alone at the state level, and
any city offered by the City option list resolves to a non-empty result when
selected at the city level, because each option list is derived from the
dataset already filtered by the higher-level selections. -/
theorem cascading_options_never_empty (df : List Row) (r s : List String)
    (v w : String) :
    (v ∈ availableStates df r → filtered_df df r [v] [] ≠ []) ∧
      (w ∈ availableCities df r s → filtered_df df r s [w] ≠ []) := by
  constructor
  · intro hv
    obtain ⟨x, hx2, hxs⟩ : ∃ x, x ∈ df2 df r ∧ x.State = v := by
      simpa [availableStates, List.mem_dedup, List.mem_map] using hv
    obtain ⟨hdf, hreg⟩ := mem_df2.mp hx2
    rw [filtered_eq_spec]
    exact List.ne_nil_of_mem (mem_resolveSpec.mpr
      ⟨hdf, hreg, fun _ => by simp [hxs], fun h => absurd rfl h⟩)
  · intro hw
    obtain ⟨x, hx3, hxc⟩ : ∃ x, x ∈ df3 df r s ∧ x.City = w := by
      simpa [availableCities, List.mem_dedup, List.mem_map] using hw
    obtain ⟨hdf, hreg, hst⟩ := mem_df3.mp hx3
    rw [filtered_eq_spec]
    exact List.ne_nil_of_mem (mem_resolveSpec.mpr
      ⟨hdf, hreg, hst, fun _ => by simp [hxc]⟩)

theorem cascading_options_never_empty_witness :
    filtered_df sampleData [] ["CA"] [] ≠ [] ∧
      filtered_df sampleData [] [] ["SF"] ≠ [] :=
  ⟨(cascading_options_never_empty sampleData [] [] "CA" "SF").1 (by decide),
   (cascading_options_never_empty sampleData [] [] "CA" "SF").2 (by decide)⟩

/-- C8: the final else branch of the resolution chain is dead code: on every
combination of selections one of the first seven branches fires (the branch
number is always below 8), and with all three selections non-empty the chain
resolves through branch 4, the `state and city` branch. -/
theorem final_else_unreachable (df : List Row) (r s c : List String)
    (a b d : String) (ra sb cb : List String) :
    branchIndex r s c < 8 ∧ branchIndex (a :: ra) (b :: sb) (d :: cb) = 4 ∧
      filtered_df df (a :: ra) (b :: sb) (d :: cb)
        = branchStateCity df (a :: ra) (b :: sb) (d :: cb) := by
  refine ⟨?_, by simp [branchIndex], by simp [filtered_df]⟩
  rcases r with _ | ⟨x, xs⟩ <;> rcases s with _ | ⟨y, ys⟩ <;>
    rcases c with _ | ⟨z, zs⟩ <;> simp [branchIndex]

/-- C9: the masks taken over the pre-cascade dataframe in the
`state and city` and `region and city` branches are redundant: whenever the
selection that `df3` already enforces is non-empty, each branch equals the
filter of `df3` by the city mask alone. -/
theorem precascade_masks_redundant (df : List Row) (r s c : List String) :
    (s ≠ [] → branchStateCity df r s c
        = (df3 df r s).filter (fun x => c.contains x.City)) ∧
      (r ≠ [] → branchRegionCity df r s c
        = (df3 df r s).filter (fun x => c.contains x.City)) := by
  constructor
  · intro hs
    refine List.filter_congr fun x hx => ?_
    have h := (mem_df3.mp hx).2.2 hs
    simp [h]
  · intro hr
    refine List.filter_congr fun x hx => ?_
    have h := (mem_df3.mp hx).2.1 hr
    simp [h]

theorem precascade_masks_redundant_witness :
    branchStateCity sampleData ["West"] ["CA"] ["SF"]
        = (df3 sampleData ["West"] ["CA"]).filter
            (fun x => (["SF"] : List String).contains x.City) ∧
      branchRegionCity sampleData ["West"] ["CA"] ["SF"]
        = (df3 sampleData ["West"] ["CA"]).filter
            (fun x => (["SF"] : List String).contains x.City) :=
  ⟨(precascade_masks_redundant sampleData ["West"] ["CA"] ["SF"]).1 (by decide),
   (precascade_masks_redundant sampleData ["West"] ["CA"] ["SF"]).2 (by decide)⟩

/-- C10: the in-place `month_year` addition of line 129 reaches the base
frame `df`, and hence the final download of line 199, exactly when all three
selections are empty -- the only case in which `filtered_df` is the `df`
object itself rather than a fresh frame; with any non-empty selection the
base frame's columns are unchanged. -/
theorem download_has_month_year_iff_no_selection (base : List String)
    (r s c : List String) (h : "month_year" ∉ base) :
    "month_year" ∈ dfColumnsAfterScript base r s c ↔ r = [] ∧ s = [] ∧ c = [] := by
  by_cases hall : r = [] ∧ s = [] ∧ c = []
  · obtain ⟨h1, h2, h3⟩ := hall
    subst h1; subst h2; subst h3
    simp [dfColumnsAfterScript, filteredAliasesDf]
  · have hfalse : filteredAliasesDf r s c = false := by
      rcases r with _ | ⟨x, xs⟩ <;> rcases s with _ | ⟨y, ys⟩ <;>
        rcases c with _ | ⟨z, zs⟩ <;> simp_all [filteredAliasesDf]
    simp [dfColumnsAfterScript, hfalse, h, hall]

theorem download_has_month_year_iff_no_selection_witness :
    ("month_year" ∈ dfColumnsAfterScript ["Region"] [] [] [] ↔
      ([] : List String) = [] ∧ ([] : List String) = [] ∧ ([] : List String) = []) :=
  download_has_month_year_iff_no_selection ["Region"] [] [] [] (by decide)

end Dashboard
